import Mathlib

/-
Shallow embedding of the SConsStandard build-configuration core:
toolchain identification (src/__init__.py getCompiler / normalizeCompilerName),
flag and path derivation (src/__init__.py getEnvironment), the probe-based
feature-detection engine (src/utils.py detectStdlib / detectFilesystem), and
the configuration handle with forking (src/ZEnv.py ZEnv.Clone and mutators).

Python strings are embedded as Lean String; Python lists as Lean List.
The SCons Environment object is external to the repository; only the
construction variables this core reads and writes are modelled, and
environment.Clone() is modelled as a value copy (SCons documented semantics:
a cloned Environment has independent copies of its construction variables,
so Append on one is not visible from the other).
-/

/-- CompilerType from src/ZEnv.py: POSIX means dash-style arguments,
MSVC_COMPATIBLE means slash-style arguments. -/
inductive CompilerType where
  | POSIX
  | MSVC_COMPATIBLE
deriving DecidableEq, Repr, Inhabited

/-- Python str.split(sep) for a one-character separator, on the character
list: splits on every occurrence, keeping empty pieces, and yields one
(possibly empty) piece even for the empty input. -/
def pySplitChars (sep : Char) : List Char → List (List Char)
  | [] => [[]]
  | c :: cs =>
    match pySplitChars sep cs with
    | [] => [[]]
    | h :: t => if c = sep then [] :: h :: t else (c :: h) :: t

/-- Python s.split(" ") as a list of Lean strings. -/
def pysplit (s : String) : List String :=
  (pySplitChars ' ' s.data).map (fun l => String.mk l)

/-- Python s.split(" ", maxsplit=1)[0]: the prefix of s before the first
space (the whole of s when it has no space). -/
def headWord (s : String) : String :=
  String.mk (s.data.takeWhile (fun c => c ≠ ' '))

theorem pySplitChars_ne_nil (sep : Char) (l : List Char) : pySplitChars sep l ≠ [] := by
  cases l with
  | nil => simp [pySplitChars]
  | cons c cs =>
    simp only [pySplitChars]
    cases h : pySplitChars sep cs with
    | nil => simp
    | cons h t =>
      by_cases hc : c = sep <;> simp [hc]

/-- Splitting a space-free prefix followed by a space peels off exactly that
prefix as the first piece. -/
theorem pySplitChars_nospace_append (s r : List Char) (h : ∀ c ∈ s, c ≠ ' ') :
    pySplitChars ' ' (s ++ ' ' :: r) = s :: pySplitChars ' ' r := by
  induction s with
  | nil =>
    simp only [List.nil_append, pySplitChars]
    cases hr : pySplitChars ' ' r with
    | nil => exact absurd hr (pySplitChars_ne_nil ' ' r)
    | cons a t => simp
  | cons c cs ih =>
    have hc : c ≠ ' ' := h c (by simp)
    have hcs : ∀ x ∈ cs, x ≠ ' ' := fun x hx => h x (by simp [hx])
    simp only [List.cons_append, pySplitChars, List.append_eq]
    rw [ih hcs]
    simp [hc]

/-- Python str.startswith, computed structurally on the character lists. -/
def pyStartswith (s p : String) : Bool :=
  List.isPrefixOf p.data s.data

/-- Python str.strip(): drop leading and trailing whitespace. -/
def pyStrip (s : String) : String :=
  String.mk (((s.data.dropWhile Char.isWhitespace).reverse.dropWhile Char.isWhitespace).reverse)

/-- normalizeCompilerName from src/__init__.py: prefix-normalizes known
compiler families; unknown names pass through (with a warning printed in the
source, modelled as pure pass-through). -/
def normalizeCompilerName (name : String) : String :=
  if pyStartswith name "gcc" ∨ pyStartswith name "g++" then "gcc"
  else if pyStartswith name "clang" ∨ pyStartswith name "clang++" then "clang"
  else if pyStartswith name "msvc" ∨ name = "cl" then "msvc"
  else if pyStartswith name "clang-cl" then "clang-cl"
  else name

/-- Construction variables of the SCons Environment that getCompiler reads
and writes: the CXX and CC invocation strings and the systemCompiler
Boolean variable. -/
structure SConsVarEnv where
  CXX : String
  CC : String
  systemCompiler : Bool
deriving DecidableEq, Repr

/-- getCompiler from src/__init__.py. osCXX and osCC are the process
environment variables CXX and CC (None when unset). Returns the possibly
updated environment together with the normalized compiler id and its
argument dialect. -/
def getCompiler (osCXX osCC : Option String) (env0 : SConsVarEnv) :
    SConsVarEnv × String × CompilerType :=
  let env1 :=
    if env0.systemCompiler = true then
      match osCXX with
      | some cxxAttempt =>
        if pyStrip cxxAttempt ≠ "" then { env0 with CXX := cxxAttempt } else env0
      | none => env0
    else env0
  let env :=
    if env0.systemCompiler = true then
      match osCC with
      | some ccAttempt =>
        if pyStrip ccAttempt ≠ "" then { env1 with CC := ccAttempt } else env1
      | none => env1
    else env1
  let it1 := env.CXX
  if it1 = "$CC" ∨ it1 = "cl" then
    (env, "msvc", CompilerType.MSVC_COMPATIBLE)
  else
    let it20 := headWord it1
    if it20 = "clang-cl" then
      (env, "clang-cl", CompilerType.MSVC_COMPATIBLE)
    else
      (env, normalizeCompilerName it20, CompilerType.POSIX)

example : (getCompiler none none ⟨"$CC", "gcc", false⟩).2 = ("msvc", CompilerType.MSVC_COMPATIBLE) := by decide
example : (getCompiler none none ⟨"cl", "gcc", false⟩).2 = ("msvc", CompilerType.MSVC_COMPATIBLE) := by decide
example : (getCompiler none none ⟨"cl x", "gcc", false⟩).2 = ("msvc", CompilerType.POSIX) := by decide
example : (getCompiler none none ⟨"$CC x", "gcc", false⟩).2 = ("$CC", CompilerType.POSIX) := by decide
example : (getCompiler none none ⟨"clang-cl -m64", "gcc", false⟩).2 = ("clang-cl", CompilerType.MSVC_COMPATIBLE) := by decide
example : (getCompiler none none ⟨"g++ -target foo", "gcc", false⟩).2 = ("gcc", CompilerType.POSIX) := by decide

/-- Helper: takeWhile of a space-free list followed by a space is that list. -/
theorem takeWhile_nospace_append (s : List Char) (r : List Char)
    (h : ∀ c ∈ s, c ≠ ' ') :
    ((s ++ ' ' :: r).takeWhile (fun c => c ≠ ' ')) = s := by
  induction s with
  | nil => simp [List.takeWhile]
  | cons c cs ih =>
    have hc : c ≠ ' ' := h c (by simp)
    have hcs : ∀ x ∈ cs, x ≠ ' ' := fun x hx => h x (by simp [hx])
    simp [List.takeWhile, hc]
    simpa using ih hcs

/-- Helper: the head word of a string made of a space-free word, a space and
a rest is that word. -/
theorem headWord_mk_append (s : List Char) (rest : String)
    (h : ∀ c ∈ s, c ≠ ' ') :
    headWord (String.mk (s ++ ' ' :: rest.data)) = String.mk s := by
  simp only [headWord]
  rw [takeWhile_nospace_append s rest.data h]

/-- C2 counterexample: the literal MSVC driver name followed by a trailing
argument resolves, through getCompiler of src/__init__.py, to the POSIX
dialect (the exact-equality test on line 54 does not fire, the invocation
falls through to prefix normalization), contradicting the claim that
trailing arguments keep the MSVC_COMPATIBLE dialect. -/
theorem getCompiler_cl_with_args_not_msvcCompatible :
    (getCompiler none none ⟨"cl x", "cl", false⟩).2 = ("msvc", CompilerType.POSIX) ∧
    ("msvc", CompilerType.POSIX) ≠ ("msvc", CompilerType.MSVC_COMPATIBLE) := by
  constructor
  · decide
  · decide

/-- Helper: for an invocation that is neither the MSVC indirection marker
nor the literal driver name, getCompiler splits off the head word and either
recognises clang-cl or prefix-normalizes with the POSIX dialect. -/
theorem getCompiler_fallthrough (cxx cc : String)
    (h1 : cxx ≠ "$CC") (h2 : cxx ≠ "cl") :
    (getCompiler none none ⟨cxx, cc, false⟩).2 =
      (if headWord cxx = "clang-cl" then ("clang-cl", CompilerType.MSVC_COMPATIBLE)
       else (normalizeCompilerName (headWord cxx), CompilerType.POSIX)) := by
  by_cases hcl : headWord cxx = "clang-cl" <;> simp [getCompiler, h1, h2, hcl]

/-- C2 amended: exact equality of the C++ invocation with the MSVC
indirection marker or the literal driver name resolves to
(msvc, MSVC_COMPATIBLE); clang-cl resolves to (clang-cl, MSVC_COMPATIBLE)
regardless of trailing arguments after a space; but the marker or driver
name with trailing arguments falls through to the POSIX dialect
(cl normalizing to compiler id msvc, the marker passing through unchanged). -/
theorem getCompiler_msvc_marker_resolution (rest cc : String) :
    (getCompiler none none ⟨"$CC", cc, false⟩).2 = ("msvc", CompilerType.MSVC_COMPATIBLE) ∧
    (getCompiler none none ⟨"cl", cc, false⟩).2 = ("msvc", CompilerType.MSVC_COMPATIBLE) ∧
    (getCompiler none none ⟨"clang-cl", cc, false⟩).2 = ("clang-cl", CompilerType.MSVC_COMPATIBLE) ∧
    (getCompiler none none ⟨String.mk ("clang-cl ".data ++ rest.data), cc, false⟩).2
      = ("clang-cl", CompilerType.MSVC_COMPATIBLE) ∧
    (getCompiler none none ⟨String.mk ("cl ".data ++ rest.data), cc, false⟩).2
      = ("msvc", CompilerType.POSIX) ∧
    (getCompiler none none ⟨String.mk ("$CC ".data ++ rest.data), cc, false⟩).2
      = ("$CC", CompilerType.POSIX) := by
  refine ⟨by simp [getCompiler], by simp [getCompiler], ?_, ?_, ?_, ?_⟩
  · rw [getCompiler_fallthrough _ _ (by decide) (by decide)]
    decide
  · have h1 : String.mk ("clang-cl ".data ++ rest.data) ≠ "$CC" := by
      intro h; have hd := congrArg String.data h; simp at hd
    have h2 : String.mk ("clang-cl ".data ++ rest.data) ≠ "cl" := by
      intro h; have hd := congrArg String.data h; simp at hd
    have h3 : headWord (String.mk ("clang-cl ".data ++ rest.data)) = "clang-cl" :=
      headWord_mk_append "clang-cl".data rest (by decide)
    rw [getCompiler_fallthrough _ _ h1 h2, h3, if_pos rfl]
  · have h1 : String.mk ("cl ".data ++ rest.data) ≠ "$CC" := by
      intro h; have hd := congrArg String.data h; simp at hd
    have h2 : String.mk ("cl ".data ++ rest.data) ≠ "cl" := by
      intro h; have hd := congrArg String.data h; simp at hd
    have h3 : headWord (String.mk ("cl ".data ++ rest.data)) = "cl" :=
      headWord_mk_append "cl".data rest (by decide)
    rw [getCompiler_fallthrough _ _ h1 h2, h3, if_neg (by decide)]
    decide
  · have h1 : String.mk ("$CC ".data ++ rest.data) ≠ "$CC" := by
      intro h; have hd := congrArg String.data h; simp at hd
    have h2 : String.mk ("$CC ".data ++ rest.data) ≠ "cl" := by
      intro h; have hd := congrArg String.data h; simp at hd
    have h3 : headWord (String.mk ("$CC ".data ++ rest.data)) = "$CC" :=
      headWord_mk_append "$CC".data rest (by decide)
    rw [getCompiler_fallthrough _ _ h1 h2, h3, if_neg (by decide)]
    decide

/-- Inputs of getEnvironment from src/__init__.py as resolved by the SCons
variable system and the process environment: the debug, systemCompiler,
coverage, dynamic and buildDir variables, the SCons PLATFORM value, the
initial CXX and CC construction variables set up by the SCons tool chain,
the process environment CXX and CC, and the initial CXXFLAGS and LINKFLAGS
construction variables. -/
structure GetEnvInput where
  debug : Bool
  systemCompiler : Bool
  coverage : Bool
  dynamic : Bool
  buildDir : String
  platform : String
  cxxInit : String
  ccInit : String
  osCXX : Option String
  osCC : Option String
  initCXXFLAGS : List String
  initLINKFLAGS : List String
deriving Repr, DecidableEq

/-- Observable state of the ZEnv handle returned by getEnvironment: its path
and identity fields and the construction variables the function appended
to. -/
structure GetEnvResult where
  path : String
  debug : Bool
  compiler : String
  argType : CompilerType
  CXX : String
  CC : String
  CXXFLAGS : List String
  LINKFLAGS : List String
  warnings : List String
deriving Repr, DecidableEq, Inhabited

/-- Compile-flag string built for the POSIX dialect
(src/__init__.py lines 133 to 142). -/
def posixCompileFlags (stdlib : String) (debug coverage : Bool) : String :=
  "-std=" ++ stdlib ++ " -pedantic -Wall -Wextra -Wno-c++11-narrowing" ++
    (if debug = true then
      " -g -O0 " ++ (if coverage = true then " --coverage " else "")
     else " -O3 ")

/-- Compile-flag string built for the MSVC-compatible dialect
(src/__init__.py lines 143 to 150); in debug mode the runtime flags go in
by list append, not through this string. -/
def msvcCompileFlags (stdlib : String) (debug dynamic : Bool) : String :=
  "/std:" ++ stdlib ++ " /W3 /EHsc /FS " ++
    (if debug = true then ""
     else " /O2 " ++ (if dynamic = true then "/MD" else "/MT") ++ " ")

/-- All appends getEnvironment makes to the CXXFLAGS construction variable,
in source order: the MSVC debug runtime and /Zi list append
(src/__init__.py line 148), the split compile-flag string (line 151), the
POSIX undefined-behaviour sanitizer flag (line 156) and the Windows
trap-on-error fallback (line 162). -/
def deriveCXXFLAGS (init : List String) (argType : CompilerType) (compiler : String)
    (debug coverage dynamic useSan : Bool) (platform stdlib : String) : List String :=
  ((init ++
    (if argType = CompilerType.MSVC_COMPATIBLE ∧ debug = true then
      [(if dynamic = true then "MDd" else "/MTd"), "/Zi"] else []) ++
    pysplit (if argType = CompilerType.POSIX then posixCompileFlags stdlib debug coverage
             else msvcCompileFlags stdlib debug dynamic)) ++
   (if debug = true ∧ useSan = true ∧ argType = CompilerType.POSIX then
     ["-fsanitize=undefined"] else [])) ++
  (if debug = true ∧ useSan = true ∧ platform = "win32" ∧ compiler ≠ "msvc" then
    ["-fsanitize-undefined-trap-on-error"] else [])

/-- All appends getEnvironment makes to the LINKFLAGS construction variable,
in source order: the POSIX coverage link flag (src/__init__.py line 139),
the MSVC debug link flag (line 147) and the sanitizer link flag on
non-Windows platforms (line 159). -/
def deriveLINKFLAGS (init : List String) (argType : CompilerType)
    (debug coverage useSan : Bool) (platform : String) : List String :=
  (init ++
   (if argType = CompilerType.POSIX then
     (if debug = true ∧ coverage = true then ["--coverage"] else [])
    else (if debug = true then ["/DEBUG"] else []))) ++
  (if debug = true ∧ useSan = true ∧ platform ≠ "win32" then
    ["-fsanitize=undefined"] else [])

/-- getEnvironment from src/__init__.py. The MinGW forcing block on win32
saves and restores CXX and CC around the tool switch, so it leaves every
modelled variable unchanged; prints other than the Windows sanitizer
warning are pure logging and are not modelled. The only raise reachable in
the modelled typed inputs is the empty buildDir check on line 127. -/
def getEnvironment (i : GetEnvInput) (stdlib : String) (useSan : Bool) :
    Except String GetEnvResult :=
  let gc := getCompiler i.osCXX i.osCC ⟨i.cxxInit, i.ccInit, i.systemCompiler⟩
  if i.buildDir = "" then Except.error "buildDir cannot be empty."
  else Except.ok
    { path := i.buildDir
      debug := i.debug
      compiler := gc.2.1
      argType := gc.2.2
      CXX := gc.1.CXX
      CC := gc.1.CC
      CXXFLAGS := deriveCXXFLAGS i.initCXXFLAGS gc.2.2 gc.2.1 i.debug i.coverage
        i.dynamic useSan i.platform stdlib
      LINKFLAGS := deriveLINKFLAGS i.initLINKFLAGS gc.2.2 i.debug i.coverage
        useSan i.platform
      warnings :=
        if i.debug = true ∧ useSan = true ∧ i.platform = "win32" ∧ gc.2.1 ≠ "msvc" then
          ["WARNING: Windows detected. MinGW lacks libubsan. Using crash instead (-fsanitize-undefined-trap-on-error)"]
        else [] }

/-- A fixed POSIX-style example input: clang on a POSIX platform, debug,
default build directory. -/
def iPosix : GetEnvInput :=
  { debug := true, systemCompiler := false, coverage := false, dynamic := false,
    buildDir := "build/", platform := "posix", cxxInit := "clang++", ccInit := "clang",
    osCXX := none, osCC := none, initCXXFLAGS := [], initLINKFLAGS := [] }

/-- C7: an empty explicit build directory makes getEnvironment raise the
fatal configuration error and return no handle; every non-empty value
yields a handle whose build path is exactly that value. -/
theorem getEnvironment_buildDir_spec (i : GetEnvInput) (stdlib : String) (useSan : Bool) :
    (i.buildDir = "" → getEnvironment i stdlib useSan = Except.error "buildDir cannot be empty.") ∧
    (i.buildDir ≠ "" → ∃ r, getEnvironment i stdlib useSan = Except.ok r ∧ r.path = i.buildDir) := by
  constructor
  · intro h
    simp [getEnvironment, h]
  · intro h
    simp only [getEnvironment]
    rw [if_neg h]
    exact ⟨_, rfl, rfl⟩

/-- Witness for C7 at concrete inputs: the empty build directory errors out
and the default build directory comes back as the handle path. -/
theorem getEnvironment_buildDir_spec_w :
    (getEnvironment { iPosix with buildDir := "" } "c++17" true
      = Except.error "buildDir cannot be empty.") ∧
    (∃ r, getEnvironment iPosix "c++17" true = Except.ok r ∧ r.path = "build/") :=
  ⟨(getEnvironment_buildDir_spec { iPosix with buildDir := "" } "c++17" true).1 rfl,
   (getEnvironment_buildDir_spec iPosix "c++17" true).2 (by decide)⟩

/-- Modelled from the spec: the legacy synthesized build-directory form
described in spec sections 4.2 and 6,
compilerId.platform.archBits followed by bit. and a dbg or release tag and
a trailing slash. No code under src derives such a path; this definition
exists only to compare the spec wording with the code. -/
def specSynthesizedBuildDir (p : String) : Prop :=
  ∃ cid plat bits tag, (tag = "dbg" ∨ tag = "release") ∧
    p = cid ++ "." ++ plat ++ "." ++ bits ++ "bit." ++ tag ++ "/"

/-- C9 counterexample: when the caller does not supply a build directory the
variable default applies, and the handle returned by getEnvironment has the
literal path build/ which is not of the synthesized
compilerId.platform.archBits form, since every synthesized path contains a
dot and build/ does not. -/
theorem getEnvironment_default_not_synthesized :
    (∃ r, getEnvironment iPosix "c++17" true = Except.ok r ∧ r.path = "build/") ∧
    ¬ specSynthesizedBuildDir "build/" := by
  constructor
  · exact ⟨_, rfl, rfl⟩
  · rintro ⟨cid, plat, bits, tag, htag, heq⟩
    have hd := congrArg String.data heq
    have hmem : '.' ∈ "build/".data := by
      rw [hd]
      have h1 : (cid ++ "." ++ plat ++ "." ++ bits ++ "bit." ++ tag ++ "/").data
          = cid.data ++ '.' :: (plat.data ++ '.' :: (bits.data ++
            ('b' :: 'i' :: 't' :: '.' :: (tag.data ++ ['/'])))) := by
        simp [String.data_append]
      rw [h1]
      simp
    exact absurd hmem (by decide)

/-- C9 amended: when the caller leaves the build directory at its default
the handle returned by getEnvironment carries the fixed literal path
build/; no compiler-, platform-, architecture- or mode-derived path is
synthesized by this revision. -/
theorem getEnvironment_default_buildDir (i : GetEnvInput) (stdlib : String)
    (useSan : Bool) (h : i.buildDir = "build/") :
    ∃ r, getEnvironment i stdlib useSan = Except.ok r ∧ r.path = "build/" := by
  have := (getEnvironment_buildDir_spec i stdlib useSan).2 (by rw [h]; decide)
  rwa [h] at this

/-- Witness for the amended C9 at a concrete input. -/
theorem getEnvironment_default_buildDir_w :
    ∃ r, getEnvironment iPosix "c++17" false = Except.ok r ∧ r.path = "build/" :=
  getEnvironment_default_buildDir iPosix "c++17" false rfl

/-- Token shape of the split MSVC-dialect compile-flag string for a
language-standard value without spaces: one standard token followed by the
fixed warning, exception and PDB tokens, and in release mode the
optimization and runtime tokens (str.split on single spaces keeps empty
pieces for double and trailing spaces). -/
theorem pysplit_msvcCompileFlags (stdlib : String) (debug dynamic : Bool)
    (hsp : ∀ c ∈ stdlib.data, c ≠ ' ') :
    pysplit (msvcCompileFlags stdlib debug dynamic) =
      String.mk ("/std:".data ++ stdlib.data) ::
        (if debug = true then ["/W3", "/EHsc", "/FS", ""]
         else ["/W3", "/EHsc", "/FS", "", "/O2",
               (if dynamic = true then "/MD" else "/MT"), ""]) := by
  have hfree : ∀ c ∈ "/std:".data ++ stdlib.data, c ≠ ' ' := by
    intro c hc
    rcases List.mem_append.mp hc with h | h
    · have hlit : ∀ c ∈ "/std:".data, c ≠ ' ' := by decide
      exact hlit c h
    · exact hsp c h
  cases debug with
  | true =>
    have hdata : (msvcCompileFlags stdlib true dynamic).data
        = ("/std:".data ++ stdlib.data) ++
          ' ' :: ['/', 'W', '3', ' ', '/', 'E', 'H', 's', 'c', ' ', '/', 'F', 'S', ' '] := by
      simp [msvcCompileFlags, String.data_append]
    simp only [pysplit, hdata, pySplitChars_nospace_append _ _ hfree]
    have hrest : pySplitChars ' '
        ['/', 'W', '3', ' ', '/', 'E', 'H', 's', 'c', ' ', '/', 'F', 'S', ' ']
        = [['/', 'W', '3'], ['/', 'E', 'H', 's', 'c'], ['/', 'F', 'S'], []] := by decide
    rw [hrest]
    simp
  | false =>
    cases dynamic with
    | true =>
      have hdata : (msvcCompileFlags stdlib false true).data
          = ("/std:".data ++ stdlib.data) ++
            ' ' :: ['/', 'W', '3', ' ', '/', 'E', 'H', 's', 'c', ' ', '/', 'F', 'S', ' ',
                    ' ', '/', 'O', '2', ' ', '/', 'M', 'D', ' '] := by
        simp [msvcCompileFlags, String.data_append]
      simp only [pysplit, hdata, pySplitChars_nospace_append _ _ hfree]
      have hrest : pySplitChars ' '
          ['/', 'W', '3', ' ', '/', 'E', 'H', 's', 'c', ' ', '/', 'F', 'S', ' ',
           ' ', '/', 'O', '2', ' ', '/', 'M', 'D', ' ']
          = [['/', 'W', '3'], ['/', 'E', 'H', 's', 'c'], ['/', 'F', 'S'], [],
             ['/', 'O', '2'], ['/', 'M', 'D'], []] := by decide
      rw [hrest]
      simp
    | false =>
      have hdata : (msvcCompileFlags stdlib false false).data
          = ("/std:".data ++ stdlib.data) ++
            ' ' :: ['/', 'W', '3', ' ', '/', 'E', 'H', 's', 'c', ' ', '/', 'F', 'S', ' ',
                    ' ', '/', 'O', '2', ' ', '/', 'M', 'T', ' '] := by
        simp [msvcCompileFlags, String.data_append]
      simp only [pysplit, hdata, pySplitChars_nospace_append _ _ hfree]
      have hrest : pySplitChars ' '
          ['/', 'W', '3', ' ', '/', 'E', 'H', 's', 'c', ' ', '/', 'F', 'S', ' ',
           ' ', '/', 'O', '2', ' ', '/', 'M', 'T', ' ']
          = [['/', 'W', '3'], ['/', 'E', 'H', 's', 'c'], ['/', 'F', 'S'], [],
             ['/', 'O', '2'], ['/', 'M', 'T'], []] := by decide
      rw [hrest]
      simp

/-- Token shape of the split POSIX-dialect compile-flag string for a
language-standard value without spaces: one standard token, the fixed
pedantic and warning tokens, then the debug, coverage or release tokens,
with empty pieces where the source string has double or trailing spaces. -/
theorem pysplit_posixCompileFlags (stdlib : String) (debug coverage : Bool)
    (hsp : ∀ c ∈ stdlib.data, c ≠ ' ') :
    pysplit (posixCompileFlags stdlib debug coverage) =
      String.mk ("-std=".data ++ stdlib.data) ::
        (if debug = true then
          (if coverage = true then
            ["-pedantic", "-Wall", "-Wextra", "-Wno-c++11-narrowing",
             "-g", "-O0", "", "--coverage", ""]
           else
            ["-pedantic", "-Wall", "-Wextra", "-Wno-c++11-narrowing",
             "-g", "-O0", ""])
         else
          ["-pedantic", "-Wall", "-Wextra", "-Wno-c++11-narrowing", "-O3", ""]) := by
  have hfree : ∀ c ∈ "-std=".data ++ stdlib.data, c ≠ ' ' := by
    intro c hc
    rcases List.mem_append.mp hc with h | h
    · have hlit : ∀ c ∈ "-std=".data, c ≠ ' ' := by decide
      exact hlit c h
    · exact hsp c h
  cases debug with
  | true =>
    cases coverage with
    | true =>
      have hdata : (posixCompileFlags stdlib true true).data
          = ("-std=".data ++ stdlib.data) ++
            ' ' :: ("-pedantic -Wall -Wextra -Wno-c++11-narrowing".data
                    ++ " -g -O0  --coverage ".data) := by
        simp [posixCompileFlags, String.data_append]
      simp only [pysplit, hdata, pySplitChars_nospace_append _ _ hfree]
      have hrest : pySplitChars ' '
          ("-pedantic -Wall -Wextra -Wno-c++11-narrowing".data ++ " -g -O0  --coverage ".data)
          = ["-pedantic".data, "-Wall".data, "-Wextra".data, "-Wno-c++11-narrowing".data,
             "-g".data, "-O0".data, [], "--coverage".data, []] := by decide
      rw [hrest]
      simp
    | false =>
      have hdata : (posixCompileFlags stdlib true false).data
          = ("-std=".data ++ stdlib.data) ++
            ' ' :: ("-pedantic -Wall -Wextra -Wno-c++11-narrowing".data
                    ++ " -g -O0 ".data) := by
        simp [posixCompileFlags, String.data_append]
      simp only [pysplit, hdata, pySplitChars_nospace_append _ _ hfree]
      have hrest : pySplitChars ' '
          ("-pedantic -Wall -Wextra -Wno-c++11-narrowing".data ++ " -g -O0 ".data)
          = ["-pedantic".data, "-Wall".data, "-Wextra".data, "-Wno-c++11-narrowing".data,
             "-g".data, "-O0".data, []] := by decide
      rw [hrest]
      simp
  | false =>
    have hdata : (posixCompileFlags stdlib false coverage).data
        = ("-std=".data ++ stdlib.data) ++
          ' ' :: ("-pedantic -Wall -Wextra -Wno-c++11-narrowing".data
                  ++ " -O3 ".data) := by
      simp [posixCompileFlags, String.data_append]
    simp only [pysplit, hdata, pySplitChars_nospace_append _ _ hfree]
    have hrest : pySplitChars ' '
        ("-pedantic -Wall -Wextra -Wno-c++11-narrowing".data ++ " -O3 ".data)
        = ["-pedantic".data, "-Wall".data, "-Wextra".data, "-Wno-c++11-narrowing".data,
           "-O3".data, []] := by decide
    rw [hrest]
    simp

/-- Helper: a string that differs from both possible standard tokens and
from every fixed token is not among the split compile-flag tokens of
either dialect. -/
theorem not_mem_pysplit_flags (x stdlib : String) (argType : CompilerType)
    (debug coverage dynamic : Bool)
    (hsp : ∀ c ∈ stdlib.data, c ≠ ' ')
    (hp : x ≠ String.mk ("-std=".data ++ stdlib.data))
    (hm : x ≠ String.mk ("/std:".data ++ stdlib.data))
    (hconc : x ∉ (["-pedantic", "-Wall", "-Wextra", "-Wno-c++11-narrowing", "-g",
      "-O0", "", "--coverage", "-O3", "/W3", "/EHsc", "/FS", "/O2", "/MD", "/MT"] :
      List String)) :
    x ∉ pysplit (if argType = CompilerType.POSIX then posixCompileFlags stdlib debug coverage
                 else msvcCompileFlags stdlib debug dynamic) := by
  cases argType with
  | POSIX =>
    rw [if_pos rfl, pysplit_posixCompileFlags stdlib debug coverage hsp]
    intro hmem
    rcases List.mem_cons.mp hmem with h | h
    · exact hp h
    · have hsub : ∀ y ∈ (if debug = true then
          (if coverage = true then
            (["-pedantic", "-Wall", "-Wextra", "-Wno-c++11-narrowing",
              "-g", "-O0", "", "--coverage", ""] : List String)
           else ["-pedantic", "-Wall", "-Wextra", "-Wno-c++11-narrowing", "-g", "-O0", ""])
         else ["-pedantic", "-Wall", "-Wextra", "-Wno-c++11-narrowing", "-O3", ""]),
          y ∈ (["-pedantic", "-Wall", "-Wextra", "-Wno-c++11-narrowing", "-g",
            "-O0", "", "--coverage", "-O3", "/W3", "/EHsc", "/FS", "/O2", "/MD", "/MT"] :
            List String) := by
        split_ifs <;> decide
      exact hconc (hsub x h)
  | MSVC_COMPATIBLE =>
    rw [if_neg (by decide), pysplit_msvcCompileFlags stdlib debug dynamic hsp]
    intro hmem
    rcases List.mem_cons.mp hmem with h | h
    · exact hm h
    · have hsub : ∀ y ∈ (if debug = true then (["/W3", "/EHsc", "/FS", ""] : List String)
          else ["/W3", "/EHsc", "/FS", "", "/O2",
                (if dynamic = true then "/MD" else "/MT"), ""]),
          y ∈ (["-pedantic", "-Wall", "-Wextra", "-Wno-c++11-narrowing", "-g",
            "-O0", "", "--coverage", "-O3", "/W3", "/EHsc", "/FS", "/O2", "/MD", "/MT"] :
            List String) := by
        split_ifs <;> decide
      exact hconc (hsub x h)

/-- C8 amended: with debug and sanitizers enabled, getEnvironment adds the
undefined-behaviour sanitizer compile flag for the POSIX dialect; it adds
the matching sanitizer link flag exactly on non-Windows platforms; and on
Windows it substitutes the trap-on-error compile flag, surfacing a warning,
exactly when the normalized compiler id is not msvc — the guard tests the
id string only, so a compiler whose id normalizes to msvc is excluded from
the fallback even when its dialect is POSIX, in which case it still
receives the POSIX undefined-behaviour compile flag. -/
theorem sanitizer_flag_spec (i : GetEnvInput) (stdlib : String) (r : GetEnvResult)
    (hok : getEnvironment i stdlib true = Except.ok r)
    (hdbg : i.debug = true)
    (hsp : ∀ c ∈ stdlib.data, c ≠ ' ')
    (h1 : "-fsanitize=undefined" ∉ i.initLINKFLAGS)
    (h2 : "-fsanitize-undefined-trap-on-error" ∉ i.initCXXFLAGS) :
    (r.argType = CompilerType.POSIX → "-fsanitize=undefined" ∈ r.CXXFLAGS) ∧
    ("-fsanitize=undefined" ∈ r.LINKFLAGS ↔ i.platform ≠ "win32") ∧
    (i.platform = "win32" →
      ("-fsanitize-undefined-trap-on-error" ∈ r.CXXFLAGS ↔ r.compiler ≠ "msvc")) ∧
    (i.platform = "win32" → r.compiler ≠ "msvc" → r.warnings ≠ []) := by
  by_cases hbd : i.buildDir = ""
  · simp [getEnvironment, hbd] at hok
  · simp only [getEnvironment] at hok
    rw [if_neg hbd] at hok
    injection hok with hok
    subst hok
    refine ⟨?_, ?_, ?_, ?_⟩
    · intro hP
      dsimp only at hP ⊢
      simp [deriveCXXFLAGS, hP, hdbg]
    · dsimp only
      by_cases hplat : i.platform = "win32"
      · simp [deriveLINKFLAGS, hplat, h1]
        split_ifs <;> simp
      · simp [deriveLINKFLAGS, hdbg, hplat]
    · intro hplat
      dsimp only
      have htok := not_mem_pysplit_flags "-fsanitize-undefined-trap-on-error" stdlib
        ((getCompiler i.osCXX i.osCC ⟨i.cxxInit, i.ccInit, i.systemCompiler⟩).2.2)
        i.debug i.coverage i.dynamic hsp
        (by intro h; have hd := congrArg String.data h; simp at hd)
        (by intro h; have hd := congrArg String.data h; simp at hd)
        (by decide)
      constructor
      · intro hmem
        by_contra hcomp
        cases hAT : (getCompiler i.osCXX i.osCC ⟨i.cxxInit, i.ccInit, i.systemCompiler⟩).2.2 with
        | POSIX =>
          rw [hAT, if_pos rfl, hdbg] at htok
          simp [deriveCXXFLAGS, hAT, hcomp, h2, htok, hdbg] at hmem
        | MSVC_COMPATIBLE =>
          rw [hAT, if_neg (by decide), hdbg] at htok
          cases hdyn : i.dynamic <;> rw [hdyn] at htok <;>
            simp [deriveCXXFLAGS, hAT, hcomp, h2, htok, hdbg, hdyn] at hmem
      · intro hcomp
        simp [deriveCXXFLAGS, hdbg, hplat, hcomp]
    · intro hplat hcomp
      dsimp only at hcomp ⊢
      simp [hdbg, hplat, hcomp]

/-- Windows input whose invocation msvc normalizes to compiler id msvc with
the POSIX dialect. -/
def iWinMsvc : GetEnvInput :=
  { debug := true, systemCompiler := false, coverage := false, dynamic := false,
    buildDir := "build/", platform := "win32", cxxInit := "msvc", ccInit := "msvc",
    osCXX := none, osCC := none, initCXXFLAGS := [], initLINKFLAGS := [] }

/-- The handle state getEnvironment produces for iWinMsvc. -/
def rWinMsvc : GetEnvResult :=
  ((getEnvironment iWinMsvc "c++17" true).toOption).getD default

/-- C8 counterexample: on Windows in debug mode with sanitizers enabled, the
invocation msvc resolves to compiler id msvc with the POSIX dialect — not
the true MSVC identity (msvc, MSVC_COMPATIBLE) — yet no trap-on-error flag
is substituted because the guard tests only the id string, while the
undefined-behaviour sanitizer compile flag is still added for this id. -/
theorem sanitizer_winMsvcPosix_counterexample :
    getEnvironment iWinMsvc "c++17" true = Except.ok rWinMsvc ∧
    rWinMsvc.compiler = "msvc" ∧
    rWinMsvc.argType = CompilerType.POSIX ∧
    (rWinMsvc.compiler, rWinMsvc.argType) ≠ ("msvc", CompilerType.MSVC_COMPATIBLE) ∧
    "-fsanitize-undefined-trap-on-error" ∉ rWinMsvc.CXXFLAGS ∧
    "-fsanitize=undefined" ∈ rWinMsvc.CXXFLAGS := by
  refine ⟨rfl, rfl, rfl, by decide, by decide, by decide⟩

/-- Windows input resolving to gcc with the POSIX dialect. -/
def iWinGcc : GetEnvInput :=
  { debug := true, systemCompiler := false, coverage := false, dynamic := false,
    buildDir := "build/", platform := "win32", cxxInit := "g++", ccInit := "gcc",
    osCXX := none, osCC := none, initCXXFLAGS := [], initLINKFLAGS := [] }

/-- The handle state getEnvironment produces for iWinGcc. -/
def rWinGcc : GetEnvResult :=
  ((getEnvironment iWinGcc "c++17" true).toOption).getD default

/-- Witness for the amended C8 at a concrete Windows input resolving to
gcc. -/
theorem sanitizer_flag_spec_w :
    (rWinGcc.argType = CompilerType.POSIX → "-fsanitize=undefined" ∈ rWinGcc.CXXFLAGS) ∧
    ("-fsanitize=undefined" ∈ rWinGcc.LINKFLAGS ↔ iWinGcc.platform ≠ "win32") ∧
    (iWinGcc.platform = "win32" →
      ("-fsanitize-undefined-trap-on-error" ∈ rWinGcc.CXXFLAGS ↔ rWinGcc.compiler ≠ "msvc")) ∧
    (iWinGcc.platform = "win32" → rWinGcc.compiler ≠ "msvc" → rWinGcc.warnings ≠ []) :=
  sanitizer_flag_spec iWinGcc "c++17" rWinGcc rfl rfl (by decide) (by decide) (by decide)

/-- C10: for the MSVC-compatible dialect, in debug mode getEnvironment
appends the runtime flag MDd without slash prefix when the dynamic toggle
is on — and never the slash-prefixed /MDd — and /MTd with the slash when
the toggle is off; in release mode it appends the slash-prefixed /MD or
/MT; so the dynamic-debug runtime flag is the only one of the four emitted
without the slash prefix. -/
theorem msvc_runtime_flag_spec (i : GetEnvInput) (stdlib : String) (useSan : Bool)
    (r : GetEnvResult)
    (hok : getEnvironment i stdlib useSan = Except.ok r)
    (hms : r.argType = CompilerType.MSVC_COMPATIBLE)
    (hsp : ∀ c ∈ stdlib.data, c ≠ ' ')
    (hi : "/MDd" ∉ i.initCXXFLAGS) :
    (i.debug = true → (if i.dynamic = true then "MDd" else "/MTd") ∈ r.CXXFLAGS) ∧
    (i.debug = true → i.dynamic = true → "/MDd" ∉ r.CXXFLAGS) ∧
    (i.debug = false → (if i.dynamic = true then "/MD" else "/MT") ∈ r.CXXFLAGS) ∧
    ((pyStartswith (if i.dynamic = true then "MDd" else "/MTd") "/" = false) ↔ i.dynamic = true) ∧
    pyStartswith (if i.dynamic = true then "/MD" else "/MT") "/" = true ∧
    pyStartswith "/MTd" "/" = true := by
  by_cases hbd : i.buildDir = ""
  · simp [getEnvironment, hbd] at hok
  · simp only [getEnvironment] at hok
    rw [if_neg hbd] at hok
    injection hok with hok
    subst hok
    dsimp only at hms
    refine ⟨?_, ?_, ?_, ?_, ?_, ?_⟩
    · intro hdbg
      dsimp only
      cases hdyn : i.dynamic <;> simp [deriveCXXFLAGS, hms, hdbg, hdyn]
    · intro hdbg hdyn
      dsimp only
      have htok := not_mem_pysplit_flags "/MDd" stdlib
        ((getCompiler i.osCXX i.osCC ⟨i.cxxInit, i.ccInit, i.systemCompiler⟩).2.2)
        i.debug i.coverage i.dynamic hsp
        (by intro h; have hd := congrArg String.data h; simp at hd)
        (by intro h; have hd := congrArg String.data h; simp at hd)
        (by decide)
      rw [hms, if_neg (by decide), hdbg, hdyn] at htok
      intro hmem
      simp [deriveCXXFLAGS, hms, hdbg, hdyn, hi, htok] at hmem
    · intro hdbg
      dsimp only
      cases hdyn : i.dynamic <;>
        simp [deriveCXXFLAGS, hms, hdbg, hdyn,
          pysplit_msvcCompileFlags stdlib false true hsp,
          pysplit_msvcCompileFlags stdlib false false hsp]
    · cases hdyn : i.dynamic <;> simp [hdyn] <;> decide
    · cases hdyn : i.dynamic <;> simp [hdyn] <;> decide
    · decide

/-- Input resolving to the true MSVC identity: the invocation is the
literal driver name cl, debug with the dynamic runtime toggle on. -/
def iMsvcDyn : GetEnvInput :=
  { debug := true, systemCompiler := false, coverage := false, dynamic := true,
    buildDir := "build/", platform := "win32", cxxInit := "cl", ccInit := "cl",
    osCXX := none, osCC := none, initCXXFLAGS := [], initLINKFLAGS := [] }

/-- The handle state getEnvironment produces for iMsvcDyn. -/
def rMsvcDyn : GetEnvResult :=
  ((getEnvironment iMsvcDyn "c++17" true).toOption).getD default

/-- Witness for C10 at a concrete MSVC input with the dynamic toggle on. -/
theorem msvc_runtime_flag_spec_w :
    (iMsvcDyn.debug = true →
      (if iMsvcDyn.dynamic = true then "MDd" else "/MTd") ∈ rMsvcDyn.CXXFLAGS) ∧
    (iMsvcDyn.debug = true → iMsvcDyn.dynamic = true → "/MDd" ∉ rMsvcDyn.CXXFLAGS) ∧
    (iMsvcDyn.debug = false →
      (if iMsvcDyn.dynamic = true then "/MD" else "/MT") ∈ rMsvcDyn.CXXFLAGS) ∧
    ((pyStartswith (if iMsvcDyn.dynamic = true then "MDd" else "/MTd") "/" = false)
      ↔ iMsvcDyn.dynamic = true) ∧
    pyStartswith (if iMsvcDyn.dynamic = true then "/MD" else "/MT") "/" = true ∧
    pyStartswith "/MTd" "/" = true :=
  msvc_runtime_flag_spec iMsvcDyn "c++17" true rMsvcDyn rfl rfl (by decide) (by decide)

/-- Construction-variable lists of one SCons Environment that the ZEnv
mutators append to. -/
structure SConsEnv where
  LIBS : List String
  LIBPATH : List String
  CPPPATH : List String
  CPPDEFINES : List String
  CXXFLAGS : List String
  LINKFLAGS : List String
deriving DecidableEq, Repr

/-- One ZEnv object from src/ZEnv.py: the constructor fields, a reference
to its SCons environment, references to the Python list objects held in
the sanitizers, libraries and compilerFlags attributes (ZEnv.Clone rebinds
the clone's attributes to the parent's list objects, so these alias), the
variantDir string and the stdlib cache attribute (None before
detection). -/
structure ZEnvObj where
  envRef : Nat
  path : String
  debug : Bool
  compiler : String
  argType : CompilerType
  sourceFlags : List String
  sanitizersRef : Nat
  librariesRef : Nat
  compilerFlagsRef : Nat
  variantDir : String
  stdlib : Option String
deriving Repr

/-- Heap of the configuration phase: SCons environments, ZEnv objects and
plain Python list objects, each addressed by allocation index; the next
fields are the allocation bounds. -/
structure Store where
  envs : Nat → SConsEnv
  nextEnv : Nat
  zenvs : Nat → ZEnvObj
  nextZ : Nat
  lists : Nat → List String
  nextList : Nat

/-- Replace the SCons environment at one reference. -/
def Store.updateEnv (σ : Store) (ref : Nat) (e : SConsEnv) : Store :=
  { σ with envs := fun j => if j = ref then e else σ.envs j }

/-- Replace the ZEnv object at one reference. -/
def Store.updateZ (σ : Store) (ref : Nat) (z : ZEnvObj) : Store :=
  { σ with zenvs := fun j => if j = ref then z else σ.zenvs j }

/-- ZEnv.Clone from src/ZEnv.py lines 223 to 237: builds a new ZEnv over
environment.Clone() — an independent copy of the SCons environment's
construction variables — then rebinds the new object's sanitizers,
libraries and compilerFlags attributes to the parent's list objects
(discarding the fresh lists the constructor allocated) and copies
variantDir and the stdlib attribute by value. Returns the new store and
the new handle. -/
def ZEnv.Clone (σ : Store) (id : Nat) : Store × Nat :=
  let z := σ.zenvs id
  let clonedEnv := σ.envs z.envRef
  let newObj : ZEnvObj :=
    { envRef := σ.nextEnv, path := z.path, debug := z.debug, compiler := z.compiler,
      argType := z.argType, sourceFlags := clonedEnv.CXXFLAGS,
      sanitizersRef := z.sanitizersRef, librariesRef := z.librariesRef,
      compilerFlagsRef := z.compilerFlagsRef, variantDir := z.variantDir,
      stdlib := z.stdlib }
  ({ σ with
      envs := fun j => if j = σ.nextEnv then clonedEnv else σ.envs j,
      nextEnv := σ.nextEnv + 1,
      zenvs := fun j => if j = σ.nextZ then newObj else σ.zenvs j,
      nextZ := σ.nextZ + 1 }, σ.nextZ)

/-- ZEnv.withLibraries from src/ZEnv.py lines 92 to 106, list overload of
the dynamic type dispatch: appends (or prepends) the given libraries to
the handle's SCons environment LIBS variable. -/
def ZEnv.withLibraries (σ : Store) (id : Nat) (libraries : List String)
    (app : Bool) : Store :=
  let z := σ.zenvs id
  let aLibs := libraries
  let e := σ.envs z.envRef
  if app = true then σ.updateEnv z.envRef { e with LIBS := e.LIBS ++ aLibs }
  else σ.updateEnv z.envRef { e with LIBS := aLibs ++ e.LIBS }

/-- ZEnv.appendLibPath from src/ZEnv.py lines 115 to 118, string argument
(the dynamic type check passes): appends to the LIBPATH variable. -/
def ZEnv.appendLibPath (σ : Store) (id : Nat) (libPath : String) : Store :=
  let z := σ.zenvs id
  let e := σ.envs z.envRef
  σ.updateEnv z.envRef { e with LIBPATH := e.LIBPATH ++ [libPath] }

/-- ZEnv.appendSourcePath from src/ZEnv.py lines 121 to 124, string
argument: appends to the CPPPATH variable. -/
def ZEnv.appendSourcePath (σ : Store) (id : Nat) (sourcePath : String) : Store :=
  let z := σ.zenvs id
  let e := σ.envs z.envRef
  σ.updateEnv z.envRef { e with CPPPATH := e.CPPPATH ++ [sourcePath] }

/-- ZEnv.define from src/ZEnv.py lines 274 to 278: wraps
environment.Append(CPPDEFINES), the handle-level compiler-flag mutator. -/
def ZEnv.define (σ : Store) (id : Nat) (v : String) : Store :=
  let z := σ.zenvs id
  let e := σ.envs z.envRef
  σ.updateEnv z.envRef { e with CPPDEFINES := e.CPPDEFINES ++ [v] }

/-- The LIBS list observable from a handle. -/
def getLIBS (σ : Store) (id : Nat) : List String :=
  (σ.envs (σ.zenvs id).envRef).LIBS

/-- The LIBPATH list observable from a handle. -/
def getLIBPATH (σ : Store) (id : Nat) : List String :=
  (σ.envs (σ.zenvs id).envRef).LIBPATH

/-- The CPPDEFINES list observable from a handle. -/
def getCPPDEFINES (σ : Store) (id : Nat) : List String :=
  (σ.envs (σ.zenvs id).envRef).CPPDEFINES

/-- The probe snippets compiled by detectStdlib and detectFilesystem in
src/utils.py, by position; each constructor stands for the literal source
text of that snippet in the file. -/
inductive Snippet where
  | cisoProbe
  | libstdcppTest
  | libcppTest
  | msvcTest
  | gccLinkProbe
  | gccCanUseProbe
  | libcppLinkProbe
  | libcppCanUseProbe
  | msvcCanUseProbe
deriving DecidableEq, Repr

/-- The external compile-probe capability: context.TryCompile restricted to
the snippets this module compiles, as a deterministic success predicate of
one fixed toolchain. -/
def Toolchain := Snippet → Bool

/-- Python truthiness of the stdlib attribute: None and the empty string
are falsy, every other string truthy. -/
def pythonTruthy : Option String → Bool
  | none => false
  | some s => !(s == "")

/-- Result of one detectStdlib call: the returned value or the raised
error, the store after the call, and the number of TryCompile
invocations. -/
structure DetectOutcome where
  result : Except String String
  store : Store
  probes : Nat

/-- The uncached path of detectStdlib (src/utils.py lines 16 to 65): one
baseline ciso646 probe, then the three discriminating probes, the first
success in the order libstdc++, libc++, MSVC STL selecting the stdlib
string, which is stored into the handle's stdlib attribute; a failed
baseline or three failed probes raise and store nothing. -/
def detectStdlibRun (tc : Toolchain) (σ : Store) (id : Nat) : DetectOutcome :=
  let z := σ.zenvs id
  let hasCiso := tc Snippet.cisoProbe
  if hasCiso = false then
    { result := Except.error "This is gonna get worse before it gets better... ciso646 is not present",
      store := σ, probes := 1 }
  else
    let isLibstdcpp := tc Snippet.libstdcppTest
    let isLibcpp := tc Snippet.libcppTest
    let isMsvc := tc Snippet.msvcTest
    if isLibstdcpp = true then
      { result := Except.ok "libstdc++",
        store := σ.updateZ id { z with stdlib := some "libstdc++" }, probes := 4 }
    else if isLibcpp = true then
      { result := Except.ok "libc++",
        store := σ.updateZ id { z with stdlib := some "libc++" }, probes := 4 }
    else if isMsvc = true then
      { result := Except.ok "msvc-stl",
        store := σ.updateZ id { z with stdlib := some "msvc-stl" }, probes := 4 }
    else
      { result := Except.error "Failed to detect stdlib.", store := σ, probes := 4 }

/-- detectStdlib from src/utils.py lines 10 to 65: returns the cached
stdlib with no probe when the attribute is truthy, otherwise runs the
probe sequence. -/
def detectStdlib (tc : Toolchain) (σ : Store) (id : Nat) : DetectOutcome :=
  let z := σ.zenvs id
  if pythonTruthy z.stdlib = true then
    { result := Except.ok (z.stdlib.getD ""), store := σ, probes := 0 }
  else detectStdlibRun tc σ id

/-- Result of one detectFilesystem call: the (supported, needsLink) pair or
the propagated stdlib-detection error, the store and the probe count. -/
structure FsOutcome where
  result : Except String (Bool × Bool)
  store : Store
  probes : Nat

/-- Per-stdlib body of detectFilesystem (src/utils.py lines 84 to 149),
entered with the stdlib attribute resolved; darwin is
platform.system() == Darwin; k counts probes made before entering. The
libstdc++ branch probes the link requirement and the support level with
two separate snippets; the libc++ branch gates the link probe on the
platform; the final branch (MSVC STL) never links and probes support
only. -/
def detectFilesystemBody (tc : Toolchain) (darwin : Bool) (σ : Store) (id : Nat)
    (k : Nat) : FsOutcome :=
  let z := σ.zenvs id
  if z.stdlib = some "libstdc++" then
    let needsLink := tc Snippet.gccLinkProbe
    let supportsFilesystem := tc Snippet.gccCanUseProbe
    { result := Except.ok (supportsFilesystem, needsLink), store := σ, probes := k + 2 }
  else if z.stdlib = some "libc++" then
    let needsLink := if darwin = true then false else tc Snippet.libcppLinkProbe
    let supportsFilesystem := tc Snippet.libcppCanUseProbe
    { result := Except.ok (supportsFilesystem, needsLink), store := σ,
      probes := k + (if darwin = true then 1 else 2) }
  else
    { result := Except.ok (tc Snippet.msvcCanUseProbe, false), store := σ, probes := k + 1 }

/-- detectFilesystem from src/utils.py lines 67 to 149: triggers stdlib
detection when the cache is not truthy (propagating its failure), then
dispatches on the detected stdlib. -/
def detectFilesystem (tc : Toolchain) (darwin : Bool) (σ : Store) (id : Nat) : FsOutcome :=
  let z := σ.zenvs id
  if pythonTruthy z.stdlib = true then detectFilesystemBody tc darwin σ id 0
  else
    let d := detectStdlibRun tc σ id
    match d.result with
    | Except.error e => { result := Except.error e, store := d.store, probes := d.probes }
    | Except.ok _ => detectFilesystemBody tc darwin d.store id d.probes

/-- A libstdc++ toolchain answering the probe snippets under standard C
preprocessor semantics: hasCiso is availability of the ciso646 header,
glibcxxDefined whether the discriminating macro is defined, release the
value of the release macro when defined. The gccLinkProbe snippet errors
out exactly when the release macro is defined with value at least 9
(utils.py lines 89 to 95); the gccCanUseProbe snippet errors out exactly
when it is undefined or below 8 (lines 96 to 102). The libc++ and MSVC
discriminating macros are undefined here, so those two tests fail; the
libcppLinkProbe compiles (an undefined macro evaluates to 0, which is not
at least 9000, so its error branch is not taken), while the
libcppCanUseProbe and msvcCanUseProbe error out. -/
def glibcxxToolchain (hasCiso glibcxxDefined : Bool) (release : Option Nat) : Toolchain :=
  fun s =>
    match s with
    | Snippet.cisoProbe => hasCiso
    | Snippet.libstdcppTest => hasCiso && glibcxxDefined
    | Snippet.libcppTest => false
    | Snippet.msvcTest => false
    | Snippet.gccLinkProbe => hasCiso && !(release.elim false (fun v => decide (9 ≤ v)))
    | Snippet.gccCanUseProbe => hasCiso && release.elim false (fun v => decide (8 ≤ v))
    | Snippet.libcppLinkProbe => hasCiso
    | Snippet.libcppCanUseProbe => false
    | Snippet.msvcCanUseProbe => false

/-- C1: cloning a handle and then appending a library (withLibraries), a
library-search path (appendLibPath) or a preprocessor define (define, the
handle-level compiler-flag mutator) to either the clone or the parent
leaves the other handle's corresponding list unchanged, in both
directions. The hypotheses say the parent handle and its environment
reference are allocated in the store. -/
theorem clone_mutation_independent (σ : Store) (p : Nat)
    (hp : p < σ.nextZ) (he : (σ.zenvs p).envRef < σ.nextEnv)
    (libs : List String) (app : Bool) (lp v : String) :
    getLIBS (ZEnv.withLibraries (ZEnv.Clone σ p).1 (ZEnv.Clone σ p).2 libs app) p
      = getLIBS (ZEnv.Clone σ p).1 p ∧
    getLIBS (ZEnv.withLibraries (ZEnv.Clone σ p).1 p libs app) (ZEnv.Clone σ p).2
      = getLIBS (ZEnv.Clone σ p).1 (ZEnv.Clone σ p).2 ∧
    getLIBPATH (ZEnv.appendLibPath (ZEnv.Clone σ p).1 (ZEnv.Clone σ p).2 lp) p
      = getLIBPATH (ZEnv.Clone σ p).1 p ∧
    getLIBPATH (ZEnv.appendLibPath (ZEnv.Clone σ p).1 p lp) (ZEnv.Clone σ p).2
      = getLIBPATH (ZEnv.Clone σ p).1 (ZEnv.Clone σ p).2 ∧
    getCPPDEFINES (ZEnv.define (ZEnv.Clone σ p).1 (ZEnv.Clone σ p).2 v) p
      = getCPPDEFINES (ZEnv.Clone σ p).1 p ∧
    getCPPDEFINES (ZEnv.define (ZEnv.Clone σ p).1 p v) (ZEnv.Clone σ p).2
      = getCPPDEFINES (ZEnv.Clone σ p).1 (ZEnv.Clone σ p).2 := by
  have hp' : p ≠ σ.nextZ := Nat.ne_of_lt hp
  have he' : (σ.zenvs p).envRef ≠ σ.nextEnv := Nat.ne_of_lt he
  cases app <;>
    simp [ZEnv.Clone, ZEnv.withLibraries, ZEnv.appendLibPath, ZEnv.define,
      getLIBS, getLIBPATH, getCPPDEFINES, Store.updateEnv, hp', he', Ne.symm he']

/-- An empty SCons environment. -/
def emptySConsEnv : SConsEnv := ⟨[], [], [], [], [], []⟩

/-- A freshly configured ZEnv object with an undetermined stdlib cache. -/
def z0 : ZEnvObj :=
  { envRef := 0, path := "build/", debug := true, compiler := "gcc",
    argType := CompilerType.POSIX, sourceFlags := [], sanitizersRef := 0,
    librariesRef := 1, compilerFlagsRef := 2, variantDir := "", stdlib := none }

/-- A store holding one environment and one handle. -/
def store0 : Store :=
  { envs := fun _ => emptySConsEnv, nextEnv := 1, zenvs := fun _ => z0,
    nextZ := 1, lists := fun _ => [], nextList := 3 }

/-- Witness for C1 at the one-handle store. -/
theorem clone_mutation_independent_w :
    getLIBS (ZEnv.withLibraries (ZEnv.Clone store0 0).1 (ZEnv.Clone store0 0).2 ["m"] true) 0
      = getLIBS (ZEnv.Clone store0 0).1 0 ∧
    getLIBS (ZEnv.withLibraries (ZEnv.Clone store0 0).1 0 ["m"] true) (ZEnv.Clone store0 0).2
      = getLIBS (ZEnv.Clone store0 0).1 (ZEnv.Clone store0 0).2 ∧
    getLIBPATH (ZEnv.appendLibPath (ZEnv.Clone store0 0).1 (ZEnv.Clone store0 0).2 "lib") 0
      = getLIBPATH (ZEnv.Clone store0 0).1 0 ∧
    getLIBPATH (ZEnv.appendLibPath (ZEnv.Clone store0 0).1 0 "lib") (ZEnv.Clone store0 0).2
      = getLIBPATH (ZEnv.Clone store0 0).1 (ZEnv.Clone store0 0).2 ∧
    getCPPDEFINES (ZEnv.define (ZEnv.Clone store0 0).1 (ZEnv.Clone store0 0).2 "D") 0
      = getCPPDEFINES (ZEnv.Clone store0 0).1 0 ∧
    getCPPDEFINES (ZEnv.define (ZEnv.Clone store0 0).1 0 "D") (ZEnv.Clone store0 0).2
      = getCPPDEFINES (ZEnv.Clone store0 0).1 (ZEnv.Clone store0 0).2 :=
  clone_mutation_independent store0 0 (by decide) (by decide) ["m"] true "lib" "D"

/-- C3: when a detection call succeeds on a handle, a second call on the
same handle performs zero TryCompile invocations and returns the same
stdlib (the cache path of src/utils.py lines 10 to 14). -/
theorem detectStdlib_idempotent (tc : Toolchain) (σ : Store) (id : Nat)
    (k : String) (σ2 : Store) (n : Nat)
    (h : detectStdlib tc σ id = ⟨Except.ok k, σ2, n⟩) :
    detectStdlib tc σ2 id = ⟨Except.ok k, σ2, 0⟩ := by
  by_cases hc : pythonTruthy ((σ.zenvs id).stdlib) = true
  · simp only [detectStdlib, hc, if_true] at h
    obtain ⟨hr, hs, hn⟩ := (DetectOutcome.mk.injEq _ _ _ _ _ _).mp h
    subst hs
    simp only [detectStdlib, hc, if_true]
    rw [hr]
  · simp only [detectStdlib, hc, if_false] at h
    rcases h0 : tc Snippet.cisoProbe <;> rcases h1 : tc Snippet.libstdcppTest <;>
      rcases h2 : tc Snippet.libcppTest <;> rcases h3 : tc Snippet.msvcTest <;>
      simp only [detectStdlibRun, h0, h1, h2, h3, Bool.false_eq_true, Bool.true_eq_false,
        if_true, if_false] at h <;>
      simp only [DetectOutcome.mk.injEq] at h
    all_goals {
      first
      | { obtain ⟨hk, hs, hn⟩ := h
          obtain hk2 := Except.ok.inj hk
          subst hk2
          rw [← hs]
          simp [detectStdlib, Store.updateZ, pythonTruthy] }
      | { exact absurd h.1 (fun hcontra => Except.noConfusion hcontra) }
    }

/-- The libstdc++ toolchain used by the detection witnesses: ciso646
available, discriminating macro defined, release 9. -/
def tcGcc : Toolchain := glibcxxToolchain true true (some 9)

/-- Witness for C3: a first detection on the one-handle store succeeds with
libstdc++, and the second call returns the same value with zero probes. -/
theorem detectStdlib_idempotent_w :
    detectStdlib tcGcc ((detectStdlib tcGcc store0 0).store) 0
      = ⟨Except.ok "libstdc++", (detectStdlib tcGcc store0 0).store, 0⟩ :=
  detectStdlib_idempotent tcGcc store0 0 "libstdc++"
    ((detectStdlib tcGcc store0 0).store) 4 rfl

/-- C4: on a handle with an undetermined cache, detection fails (raises,
returns no result, stores nothing) exactly when the baseline ciso646 probe
fails or none of the three discriminating probes compiles; otherwise the
first succeeding probe in the order libstdc++, libc++, MSVC STL determines
the detected stdlib. -/
theorem detectStdlib_failure_cases (tc : Toolchain) (σ : Store) (id : Nat)
    (h : pythonTruthy ((σ.zenvs id).stdlib) = false) :
    ((∃ e, (detectStdlib tc σ id).result = Except.error e) ↔
      (tc Snippet.cisoProbe = false ∨
       (tc Snippet.libstdcppTest = false ∧ tc Snippet.libcppTest = false ∧
        tc Snippet.msvcTest = false))) ∧
    ((∃ e, (detectStdlib tc σ id).result = Except.error e) →
      (detectStdlib tc σ id).store = σ) ∧
    (tc Snippet.cisoProbe = true → tc Snippet.libstdcppTest = true →
      (detectStdlib tc σ id).result = Except.ok "libstdc++") ∧
    (tc Snippet.cisoProbe = true → tc Snippet.libstdcppTest = false →
      tc Snippet.libcppTest = true →
      (detectStdlib tc σ id).result = Except.ok "libc++") ∧
    (tc Snippet.cisoProbe = true → tc Snippet.libstdcppTest = false →
      tc Snippet.libcppTest = false → tc Snippet.msvcTest = true →
      (detectStdlib tc σ id).result = Except.ok "msvc-stl") := by
  rcases h0 : tc Snippet.cisoProbe <;> rcases h1 : tc Snippet.libstdcppTest <;>
    rcases h2 : tc Snippet.libcppTest <;> rcases h3 : tc Snippet.msvcTest <;>
    simp [detectStdlib, detectStdlibRun, h, h0, h1, h2, h3]

/-- Witness for C4 at the one-handle store with the libstdc++ toolchain. -/
theorem detectStdlib_failure_cases_w :
    ((∃ e, (detectStdlib tcGcc store0 0).result = Except.error e) ↔
      (tcGcc Snippet.cisoProbe = false ∨
       (tcGcc Snippet.libstdcppTest = false ∧ tcGcc Snippet.libcppTest = false ∧
        tcGcc Snippet.msvcTest = false))) ∧
    ((∃ e, (detectStdlib tcGcc store0 0).result = Except.error e) →
      (detectStdlib tcGcc store0 0).store = store0) ∧
    (tcGcc Snippet.cisoProbe = true → tcGcc Snippet.libstdcppTest = true →
      (detectStdlib tcGcc store0 0).result = Except.ok "libstdc++") ∧
    (tcGcc Snippet.cisoProbe = true → tcGcc Snippet.libstdcppTest = false →
      tcGcc Snippet.libcppTest = true →
      (detectStdlib tcGcc store0 0).result = Except.ok "libc++") ∧
    (tcGcc Snippet.cisoProbe = true → tcGcc Snippet.libstdcppTest = false →
      tcGcc Snippet.libcppTest = false → tcGcc Snippet.msvcTest = true →
      (detectStdlib tcGcc store0 0).result = Except.ok "msvc-stl") :=
  detectStdlib_failure_cases tcGcc store0 0 rfl

/-- C5: Clone copies the stdlib cache by value at fork time. A clone made
after successful detection carries the resolved value, and a query on the
clone makes zero probes and returns that value; a clone made before
detection carries the undetermined cache, and a query on the clone performs
probes (a nonzero probe count) and writes only the clone's own attribute,
leaving the parent's object untouched. -/
theorem clone_stdlib_cache_spec (tc : Toolchain) (σ : Store) (p : Nat)
    (hp : p < σ.nextZ) :
    ((ZEnv.Clone σ p).1.zenvs (ZEnv.Clone σ p).2).stdlib = (σ.zenvs p).stdlib ∧
    (∀ k, (σ.zenvs p).stdlib = some k → k ≠ "" →
      detectStdlib tc (ZEnv.Clone σ p).1 (ZEnv.Clone σ p).2
        = ⟨Except.ok k, (ZEnv.Clone σ p).1, 0⟩) ∧
    ((σ.zenvs p).stdlib = none →
      (detectStdlib tc (ZEnv.Clone σ p).1 (ZEnv.Clone σ p).2).probes ≠ 0 ∧
      (detectStdlib tc (ZEnv.Clone σ p).1 (ZEnv.Clone σ p).2).store.zenvs p
        = (ZEnv.Clone σ p).1.zenvs p) := by
  have hp' : p ≠ σ.nextZ := Nat.ne_of_lt hp
  refine ⟨?_, ?_, ?_⟩
  · simp [ZEnv.Clone]
  · intro k hk hne
    simp [detectStdlib, ZEnv.Clone, pythonTruthy, hk, hne]
  · intro hnone
    constructor
    · simp only [detectStdlib, ZEnv.Clone, pythonTruthy, hnone]
      rcases h0 : tc Snippet.cisoProbe <;> rcases h1 : tc Snippet.libstdcppTest <;>
        rcases h2 : tc Snippet.libcppTest <;> rcases h3 : tc Snippet.msvcTest <;>
        simp [detectStdlibRun, h0, h1, h2, h3]
    · simp only [detectStdlib, ZEnv.Clone, pythonTruthy, hnone]
      rcases h0 : tc Snippet.cisoProbe <;> rcases h1 : tc Snippet.libstdcppTest <;>
        rcases h2 : tc Snippet.libcppTest <;> rcases h3 : tc Snippet.msvcTest <;>
        simp [detectStdlibRun, h0, h1, h2, h3, Store.updateZ, hp']

/-- Witness for C5 at the one-handle store (undetermined cache) with the
libstdc++ toolchain. -/
theorem clone_stdlib_cache_spec_w :
    ((ZEnv.Clone store0 0).1.zenvs (ZEnv.Clone store0 0).2).stdlib
      = (store0.zenvs 0).stdlib ∧
    (∀ k, (store0.zenvs 0).stdlib = some k → k ≠ "" →
      detectStdlib tcGcc (ZEnv.Clone store0 0).1 (ZEnv.Clone store0 0).2
        = ⟨Except.ok k, (ZEnv.Clone store0 0).1, 0⟩) ∧
    ((store0.zenvs 0).stdlib = none →
      (detectStdlib tcGcc (ZEnv.Clone store0 0).1 (ZEnv.Clone store0 0).2).probes ≠ 0 ∧
      (detectStdlib tcGcc (ZEnv.Clone store0 0).1 (ZEnv.Clone store0 0).2).store.zenvs 0
        = (ZEnv.Clone store0 0).1.zenvs 0) :=
  clone_stdlib_cache_spec tcGcc store0 0 (by decide)

/-- C6: on a handle whose detected stdlib is libstdc++ (over a toolchain
with the ciso646 header available), filesystem detection leaves the store
unchanged and returns a pair probed by two separate snippets: the link
requirement is true exactly when the release macro is undefined or its
value is below 9, and support is true exactly when the release macro is
defined with value at least 8, each independent of the other. -/
theorem detectFilesystem_libstdcxx_spec (g darwin : Bool) (release : Option Nat)
    (σ : Store) (id : Nat) (hs : (σ.zenvs id).stdlib = some "libstdc++") :
    (detectFilesystem (glibcxxToolchain true g release) darwin σ id).store = σ ∧
    ∃ supported needsLink,
      (detectFilesystem (glibcxxToolchain true g release) darwin σ id).result
        = Except.ok (supported, needsLink) ∧
      (needsLink = true ↔ (release = none ∨ ∃ v, release = some v ∧ v < 9)) ∧
      (supported = true ↔ ∃ v, release = some v ∧ 8 ≤ v) := by
  constructor
  · simp [detectFilesystem, detectFilesystemBody, hs, pythonTruthy]
  · refine ⟨glibcxxToolchain true g release Snippet.gccCanUseProbe,
      glibcxxToolchain true g release Snippet.gccLinkProbe, ?_, ?_, ?_⟩
    · simp [detectFilesystem, detectFilesystemBody, hs, pythonTruthy]
    · rcases release with _ | v <;> simp [glibcxxToolchain]
    · rcases release with _ | v <;> simp [glibcxxToolchain]

/-- The one-handle store after its stdlib has been detected as
libstdc++. -/
def store1 : Store :=
  { store0 with zenvs := fun _ => { z0 with stdlib := some "libstdc++" } }

/-- Witness for C6 at the detected store with release 8: supported, and
explicit linking required. -/
theorem detectFilesystem_libstdcxx_spec_w :
    (detectFilesystem (glibcxxToolchain true true (some 8)) false store1 0).store
      = store1 ∧
    ∃ supported needsLink,
      (detectFilesystem (glibcxxToolchain true true (some 8)) false store1 0).result
        = Except.ok (supported, needsLink) ∧
      (needsLink = true ↔ (some 8 = none ∨ ∃ v, some 8 = some v ∧ v < 9)) ∧
      (supported = true ↔ ∃ v, some 8 = some v ∧ 8 ≤ v) :=
  detectFilesystem_libstdcxx_spec true false (some 8) store1 0 rfl
